import Mathlib

/-!
Verification of the layered partial-configuration resolution engine of
splinter-saplingjs (splinterd configuration defaults).

The shallow embedding below follows src/splinterd/src/config/default.rs.
The sparse record type (Rust `PartialConfig`, called SparseConfig by the
design document) and the resolver `merge` are not part of the available
source; they are modelled from the specification where noted.

Rust machine integers here are u64 quantities (heartbeat seconds, timeout
milliseconds) far below overflow, embedded as Nat. The filesystem is
abstracted as a predicate `is_file : String → Bool`; `Path::to_str` on a
path obtained by joining Rust `String`s is always `Some` on Unix, because
the byte sequence stays valid UTF-8, so path values are plain `String`s.
-/

namespace SplinterConfig

/-- Constant from src/splinterd/src/config/default.rs line 19. -/
def DEFAULT_CERT_DIR : String := "/etc/splinter/certs/"

/-- Constant from src/splinterd/src/config/default.rs line 20. -/
def DEFAULT_STATE_DIR : String := "/var/lib/splinter/"

/-- Constant from src/splinterd/src/config/default.rs line 22. -/
def CLIENT_CERT : String := "client.crt"

/-- Constant from src/splinterd/src/config/default.rs line 23. -/
def CLIENT_KEY : String := "private/client.key"

/-- Constant from src/splinterd/src/config/default.rs line 24. -/
def SERVER_CERT : String := "server.crt"

/-- Constant from src/splinterd/src/config/default.rs line 25. -/
def SERVER_KEY : String := "private/server.key"

/-- Constant from src/splinterd/src/config/default.rs line 26. -/
def CA_PEM : String := "ca.pem"

/-- Constant from src/splinterd/src/config/default.rs line 27. -/
def HEARTBEAT_DEFAULT : Nat := 30

/-- Constant from src/splinterd/src/config/default.rs line 28. -/
def DEFAULT_ADMIN_SERVICE_COORDINATOR_TIMEOUT_MILLIS : Nat := 30000

/-- Embedding of Rust std::time::Duration: whole seconds plus a
sub-second nanosecond part. -/
structure Duration where
  secs : Nat
  nanos : Nat
deriving DecidableEq

/-- Rust Duration::from_millis. -/
def Duration.from_millis (m : Nat) : Duration :=
  { secs := m / 1000, nanos := m % 1000 * 1000000 }

/-- Rust Duration::as_millis. -/
def Duration.as_millis (d : Duration) : Nat :=
  d.secs * 1000 + d.nanos / 1000000

/-- Embedding of Rust Path::new(dir).join(file) rendered back to a string
(Unix separator rules: an absolute right operand replaces the base, and a
separator is inserted only when the base does not already end in one). -/
def path_join (dir file : String) : String :=
  if file.data.head? = some '/' then file
  else if dir = "" then file
  else if dir.data.getLast? = some '/' then dir ++ file
  else dir ++ "/" ++ file

/-- The sparse configuration record: one optional slot per recognized
configuration field (Rust `PartialConfig`; the design document names it
SparseConfig). The `database` slot exists in Rust only under
cfg(feature = "database"); it is modelled as an always-present slot that
stays absent when the feature flag is off. -/
@[ext]
structure SparseConfig where
  storage : Option String
  transport : Option String
  cert_dir : Option String
  ca_certs : Option String
  client_cert : Option String
  client_key : Option String
  server_cert : Option String
  server_key : Option String
  service_endpoint : Option String
  network_endpoint : Option String
  peers : Option (List String)
  node_id : Option String
  bind : Option String
  database : Option String
  registry_backend : Option String
  registry_file : Option String
  heartbeat_interval : Option Nat
  admin_service_coordinator_timeout : Option Nat
  state_dir : Option String
deriving DecidableEq

/-- Modelled from the spec: Rust `PartialConfig::default()` — every slot
absent ("a source that does not mention a field must produce absent"). -/
def SparseConfig.default : SparseConfig :=
  { storage := none, transport := none, cert_dir := none, ca_certs := none
    client_cert := none, client_key := none, server_cert := none
    server_key := none, service_endpoint := none, network_endpoint := none
    peers := none, node_id := none, bind := none, database := none
    registry_backend := none, registry_file := none
    heartbeat_interval := none, admin_service_coordinator_timeout := none
    state_dir := none }

/-- Modelled from the spec: the with_storage builder operation of the
sparse record (sets the slot, absent or present, as given). -/
def SparseConfig.with_storage (c : SparseConfig) (v : Option String) : SparseConfig :=
  { c with storage := v }

/-- Modelled from the spec: the with_transport builder operation. -/
def SparseConfig.with_transport (c : SparseConfig) (v : Option String) : SparseConfig :=
  { c with transport := v }

/-- Modelled from the spec: the with_cert_dir builder operation. -/
def SparseConfig.with_cert_dir (c : SparseConfig) (v : Option String) : SparseConfig :=
  { c with cert_dir := v }

/-- Modelled from the spec: the with_ca_certs builder operation. -/
def SparseConfig.with_ca_certs (c : SparseConfig) (v : Option String) : SparseConfig :=
  { c with ca_certs := v }

/-- Modelled from the spec: the with_client_cert builder operation. -/
def SparseConfig.with_client_cert (c : SparseConfig) (v : Option String) : SparseConfig :=
  { c with client_cert := v }

/-- Modelled from the spec: the with_client_key builder operation. -/
def SparseConfig.with_client_key (c : SparseConfig) (v : Option String) : SparseConfig :=
  { c with client_key := v }

/-- Modelled from the spec: the with_server_cert builder operation. -/
def SparseConfig.with_server_cert (c : SparseConfig) (v : Option String) : SparseConfig :=
  { c with server_cert := v }

/-- Modelled from the spec: the with_server_key builder operation. -/
def SparseConfig.with_server_key (c : SparseConfig) (v : Option String) : SparseConfig :=
  { c with server_key := v }

/-- Modelled from the spec: the with_service_endpoint builder operation. -/
def SparseConfig.with_service_endpoint (c : SparseConfig) (v : Option String) : SparseConfig :=
  { c with service_endpoint := v }

/-- Modelled from the spec: the with_network_endpoint builder operation. -/
def SparseConfig.with_network_endpoint (c : SparseConfig) (v : Option String) : SparseConfig :=
  { c with network_endpoint := v }

/-- Modelled from the spec: the with_peers builder operation. -/
def SparseConfig.with_peers (c : SparseConfig) (v : Option (List String)) : SparseConfig :=
  { c with peers := v }

/-- Modelled from the spec: the with_node_id builder operation. -/
def SparseConfig.with_node_id (c : SparseConfig) (v : Option String) : SparseConfig :=
  { c with node_id := v }

/-- Modelled from the spec: the with_bind builder operation. -/
def SparseConfig.with_bind (c : SparseConfig) (v : Option String) : SparseConfig :=
  { c with bind := v }

/-- Modelled from the spec: the with_database builder operation (present
only under cfg(feature = "database") in Rust). -/
def SparseConfig.with_database (c : SparseConfig) (v : Option String) : SparseConfig :=
  { c with database := v }

/-- Modelled from the spec: the with_registry_backend builder operation. -/
def SparseConfig.with_registry_backend (c : SparseConfig) (v : Option String) : SparseConfig :=
  { c with registry_backend := v }

/-- Modelled from the spec: the with_registry_file builder operation. -/
def SparseConfig.with_registry_file (c : SparseConfig) (v : Option String) : SparseConfig :=
  { c with registry_file := v }

/-- Modelled from the spec: the with_heartbeat_interval builder operation. -/
def SparseConfig.with_heartbeat_interval (c : SparseConfig) (v : Option Nat) : SparseConfig :=
  { c with heartbeat_interval := v }

/-- Modelled from the spec: the with_admin_service_coordinator_timeout
builder operation (the slot stores raw milliseconds). -/
def SparseConfig.with_admin_service_coordinator_timeout (c : SparseConfig) (v : Option Nat) : SparseConfig :=
  { c with admin_service_coordinator_timeout := v }

/-- Modelled from the spec: the with_state_dir builder operation. -/
def SparseConfig.with_state_dir (c : SparseConfig) (v : Option String) : SparseConfig :=
  { c with state_dir := v }

/-- Modelled from the spec: the read accessor for
admin_service_coordinator_timeout returns the stored milliseconds as a
Duration value, not a raw integer (evidenced by the unit test in
src/splinterd/src/config/default.rs lines 168-175, which compares the
accessor against Duration::from_millis of the stored constant). -/
def SparseConfig.get_admin_service_coordinator_timeout (c : SparseConfig) : Option Duration :=
  c.admin_service_coordinator_timeout.map Duration.from_millis

/-- Embedding of get_cert_file_path from src/splinterd/src/config/default.rs
lines 54-61. The filesystem is the abstract predicate is_file. The first
component is the field value (Path::to_str of the joined path, always Some
on Unix for paths built from Rust Strings); the second component is the
list of debug diagnostics emitted (nonempty exactly when the joined path
is not an existing file). -/
def get_cert_file_path (is_file : String → Bool) (cert_dir file : String) :
    Option String × List String :=
  let cert_file_path := path_join cert_dir file
  let diagnostics :=
    if is_file cert_file_path then []
    else ["Configuration file not found: " ++ cert_dir ++ file]
  (some cert_file_path, diagnostics)

/-- Holds the default configuration values
(src/splinterd/src/config/default.rs lines 31-52). The Rust struct has the
database field only under cfg(feature = "database"); here the field is
always present and the feature flag governs how new fills it. -/
structure DefaultConfig where
  storage : Option String
  transport : Option String
  cert_dir : Option String
  ca_certs : Option String
  client_cert : Option String
  client_key : Option String
  server_cert : Option String
  server_key : Option String
  service_endpoint : Option String
  network_endpoint : Option String
  peers : Option (List String)
  node_id : Option String
  bind : Option String
  database : Option String
  registry_backend : Option String
  registry_file : Option String
  heartbeat_interval : Option Nat
  admin_service_coordinator_timeout : Option Nat
  state_dir : Option String
deriving DecidableEq

/-- Embedding of DefaultConfig::new from src/splinterd/src/config/default.rs
lines 63-91, parameterized by the abstract filesystem and by the
cfg(feature = "database") compilation flag. -/
def DefaultConfig.new (is_file : String → Bool) (database_feature : Bool) : DefaultConfig :=
  { storage := some "yaml"
    transport := some "raw"
    cert_dir := some DEFAULT_CERT_DIR
    ca_certs := (get_cert_file_path is_file DEFAULT_CERT_DIR CA_PEM).1
    client_cert := (get_cert_file_path is_file DEFAULT_CERT_DIR CLIENT_CERT).1
    client_key := (get_cert_file_path is_file DEFAULT_CERT_DIR CLIENT_KEY).1
    server_cert := (get_cert_file_path is_file DEFAULT_CERT_DIR SERVER_CERT).1
    server_key := (get_cert_file_path is_file DEFAULT_CERT_DIR SERVER_KEY).1
    service_endpoint := some "127.0.0.1:8043"
    network_endpoint := some "127.0.0.1:8044"
    peers := some []
    node_id := none
    bind := some "127.0.0.1:8080"
    database := if database_feature then some "127.0.0.1:5432" else none
    registry_backend := none
    registry_file := none
    heartbeat_interval := some HEARTBEAT_DEFAULT
    admin_service_coordinator_timeout :=
      some DEFAULT_ADMIN_SERVICE_COORDINATOR_TIMEOUT_MILLIS
    state_dir := some DEFAULT_STATE_DIR }

/-- Embedding of the PartialConfigBuilder build implementation for
DefaultConfig, src/splinterd/src/config/default.rs lines 93-121: chains
the with builder calls on the all-absent record, and appends the
with_database call only under cfg(feature = "database"). -/
def DefaultConfig.build (self : DefaultConfig) (database_feature : Bool) : SparseConfig :=
  let base_config :=
    SparseConfig.default
      |>.with_storage self.storage
      |>.with_transport self.transport
      |>.with_cert_dir self.cert_dir
      |>.with_ca_certs self.ca_certs
      |>.with_client_cert self.client_cert
      |>.with_client_key self.client_key
      |>.with_server_cert self.server_cert
      |>.with_server_key self.server_key
      |>.with_service_endpoint self.service_endpoint
      |>.with_network_endpoint self.network_endpoint
      |>.with_peers self.peers
      |>.with_node_id self.node_id
      |>.with_bind self.bind
      |>.with_registry_backend self.registry_backend
      |>.with_registry_file self.registry_file
      |>.with_heartbeat_interval self.heartbeat_interval
      |>.with_admin_service_coordinator_timeout self.admin_service_coordinator_timeout
      |>.with_state_dir self.state_dir
  if database_feature then base_config.with_database self.database else base_config

/-- The recognized configuration fields, one constructor per slot of the
sparse record. -/
inductive ConfigField where
  | storage | transport | cert_dir | ca_certs | client_cert | client_key
  | server_cert | server_key | service_endpoint | network_endpoint | peers
  | node_id | bind | database | registry_backend | registry_file
  | heartbeat_interval | admin_service_coordinator_timeout | state_dir
deriving DecidableEq

/-- Field values, tagged by the field's type (string, string sequence, or
integer). -/
inductive FieldVal where
  | str : String → FieldVal
  | strList : List String → FieldVal
  | nat : Nat → FieldVal
deriving DecidableEq

/-- The read accessor of the sparse record, uniform over fields: the
slot's content, tagged with its type. -/
def SparseConfig.get (c : SparseConfig) : ConfigField → Option FieldVal
  | .storage => c.storage.map FieldVal.str
  | .transport => c.transport.map FieldVal.str
  | .cert_dir => c.cert_dir.map FieldVal.str
  | .ca_certs => c.ca_certs.map FieldVal.str
  | .client_cert => c.client_cert.map FieldVal.str
  | .client_key => c.client_key.map FieldVal.str
  | .server_cert => c.server_cert.map FieldVal.str
  | .server_key => c.server_key.map FieldVal.str
  | .service_endpoint => c.service_endpoint.map FieldVal.str
  | .network_endpoint => c.network_endpoint.map FieldVal.str
  | .peers => c.peers.map FieldVal.strList
  | .node_id => c.node_id.map FieldVal.str
  | .bind => c.bind.map FieldVal.str
  | .database => c.database.map FieldVal.str
  | .registry_backend => c.registry_backend.map FieldVal.str
  | .registry_file => c.registry_file.map FieldVal.str
  | .heartbeat_interval => c.heartbeat_interval.map FieldVal.nat
  | .admin_service_coordinator_timeout =>
      c.admin_service_coordinator_timeout.map FieldVal.nat
  | .state_dir => c.state_dir.map FieldVal.str

/-- First present slot of an ordered list of optional values (highest
precedence first). -/
def firstPresent {α : Type} : List (Option α) → Option α
  | [] => none
  | none :: rest => firstPresent rest
  | some v :: _ => some v

/-- Modelled from the spec: ConfigResolver.merge — merges an ordered
sequence of sparse records, highest precedence first, into one resolved
record; for every field independently, the resolved value is the value
from the first source whose slot for that field is present, absent when no
source has it. The resolved record has the same slot set as the sparse
record. -/
def merge (sources : List SparseConfig) : SparseConfig :=
  { storage := firstPresent (sources.map fun c => c.storage)
    transport := firstPresent (sources.map fun c => c.transport)
    cert_dir := firstPresent (sources.map fun c => c.cert_dir)
    ca_certs := firstPresent (sources.map fun c => c.ca_certs)
    client_cert := firstPresent (sources.map fun c => c.client_cert)
    client_key := firstPresent (sources.map fun c => c.client_key)
    server_cert := firstPresent (sources.map fun c => c.server_cert)
    server_key := firstPresent (sources.map fun c => c.server_key)
    service_endpoint := firstPresent (sources.map fun c => c.service_endpoint)
    network_endpoint := firstPresent (sources.map fun c => c.network_endpoint)
    peers := firstPresent (sources.map fun c => c.peers)
    node_id := firstPresent (sources.map fun c => c.node_id)
    bind := firstPresent (sources.map fun c => c.bind)
    database := firstPresent (sources.map fun c => c.database)
    registry_backend := firstPresent (sources.map fun c => c.registry_backend)
    registry_file := firstPresent (sources.map fun c => c.registry_file)
    heartbeat_interval := firstPresent (sources.map fun c => c.heartbeat_interval)
    admin_service_coordinator_timeout :=
      firstPresent (sources.map fun c => c.admin_service_coordinator_timeout)
    state_dir := firstPresent (sources.map fun c => c.state_dir) }

/-! ### Helper lemmas about firstPresent -/

theorem firstPresent_map {α β : Type} (f : α → β) (l : List (Option α)) :
    firstPresent (l.map (Option.map f)) = (firstPresent l).map f := by
  induction l with
  | nil => rfl
  | cons o rest ih =>
    cases o with
    | none => simpa [firstPresent] using ih
    | some v => rfl

theorem firstPresent_map_proj {α : Type} (S : List SparseConfig)
    (p : SparseConfig → Option α) (f : α → FieldVal) :
    (firstPresent (S.map p)).map f = firstPresent (S.map fun c => (p c).map f) := by
  rw [← firstPresent_map, List.map_map]
  rfl

/-- The uniform accessor commutes with merge: the merged record's slot for
any field is the first present slot among the sources, scanned in
precedence order. -/
theorem merge_get (S : List SparseConfig) (F : ConfigField) :
    (merge S).get F = firstPresent (S.map fun c => c.get F) := by
  cases F <;> simp only [SparseConfig.get, merge] <;> exact firstPresent_map_proj S _ _

theorem firstPresent_eq_none {α : Type} (l : List (Option α)) :
    firstPresent l = none ↔ ∀ o ∈ l, o = none := by
  induction l with
  | nil => simp [firstPresent]
  | cons o rest ih =>
    cases o with
    | none => simp [firstPresent, ih]
    | some v => simp [firstPresent]

theorem firstPresent_eq_some {α : Type} (l : List (Option α)) (v : α) :
    firstPresent l = some v ↔
      ∃ i, i < l.length ∧ l.getD i none = some v ∧
        ∀ j, j < i → l.getD j none = none := by
  induction l with
  | nil => simp [firstPresent]
  | cons o rest ih =>
    cases o with
    | some w =>
      simp only [firstPresent, Option.some.injEq]
      constructor
      · intro h
        exact ⟨0, by simp, by simp [h], fun j hj => absurd hj (Nat.not_lt_zero j)⟩
      · rintro ⟨i, hi, hv, hmin⟩
        cases i with
        | zero => simpa using hv
        | succ i' =>
          have h0 := hmin 0 (Nat.succ_pos i')
          simp at h0
    | none =>
      simp only [firstPresent]
      rw [ih]
      constructor
      · rintro ⟨i, hi, hv, hmin⟩
        refine ⟨i + 1, by simp; omega, by simpa using hv, fun j hj => ?_⟩
        cases j with
        | zero => simp
        | succ j' => simpa using hmin j' (by omega)
      · rintro ⟨i, hi, hv, hmin⟩
        cases i with
        | zero => simp at hv
        | succ i' =>
          refine ⟨i', by simp at hi; omega, by simpa using hv, fun j hj => ?_⟩
          simpa using hmin (j + 1) (by omega)

theorem getD_map_get (F : ConfigField) :
    ∀ (S : List SparseConfig) (i : Nat), i < S.length →
      (S.map fun c => c.get F).getD i none = (S.getD i SparseConfig.default).get F := by
  intro S
  induction S with
  | nil => intro i h; exact absurd h (Nat.not_lt_zero i)
  | cons c rest ih =>
    intro i h
    cases i with
    | zero => simp
    | succ i' =>
      simp only [List.map_cons, List.getD_cons_succ]
      exact ih i' (by simp at h; omega)

theorem firstPresent_pair_self {α : Type} (o : Option α) :
    firstPresent [o, o] = firstPresent [o] := by
  cases o <;> rfl

/-! ### Claim theorems -/

/-- Claim C1: for every field F and every ordered list of sources S
(highest precedence first), merge(S)[F] equals the value of F from the
first source in S whose slot for F is present, and is absent exactly when
no source in S has F present; the rule is applied per field. -/
theorem merge_first_present_wins (F : ConfigField) (S : List SparseConfig) :
    ((merge S).get F = none ↔ ∀ c ∈ S, c.get F = none) ∧
    ∀ v, ((merge S).get F = some v ↔
      ∃ i, i < S.length ∧ (S.getD i SparseConfig.default).get F = some v ∧
        ∀ j, j < i → (S.getD j SparseConfig.default).get F = none) := by
  constructor
  · rw [merge_get, firstPresent_eq_none]
    simp
  · intro v
    rw [merge_get, firstPresent_eq_some]
    simp only [List.length_map]
    constructor
    · rintro ⟨i, hi, hv, hmin⟩
      refine ⟨i, hi, ?_, fun j hj => ?_⟩
      · rw [← getD_map_get F S i hi]
        exact hv
      · rw [← getD_map_get F S j (lt_trans hj hi)]
        exact hmin j hj
    · rintro ⟨i, hi, hv, hmin⟩
      refine ⟨i, hi, ?_, fun j hj => ?_⟩
      · rw [getD_map_get F S i hi]
        exact hv
      · rw [getD_map_get F S j (lt_trans hj hi)]
        exact hmin j hj

/-- Claim C4: merge is pure and total — it is a total function returning a
resolved record for every source list — and merging the empty source list
yields the record in which every field is absent. -/
theorem merge_total_and_empty_absent :
    (∀ S : List SparseConfig, ∃ r : SparseConfig, merge S = r) ∧
    ∀ F : ConfigField, (merge []).get F = none := by
  refine ⟨fun S => ⟨merge S, rfl⟩, fun F => ?_⟩
  cases F <;> rfl

/-- Claim C5: merging is idempotent in duplicated sources — for every
sparse record A, merge [A, A] equals merge [A]. -/
theorem merge_idempotent (A : SparseConfig) : merge [A, A] = merge [A] := by
  ext <;> simp [merge, firstPresent_pair_self]

/-- Claim C6: merge is order-sensitive — when A and B both have field F
present with different values, merge [A, B] resolves F to A's value and
merge [B, A] resolves F to B's value; no field is unioned or appended
across sources, the first present slot wins wholesale. -/
theorem merge_order_sensitive (F : ConfigField) (A B : SparseConfig)
    (v w : FieldVal) (_hvw : v ≠ w)
    (hA : A.get F = some v) (hB : B.get F = some w) :
    (merge [A, B]).get F = some v ∧ (merge [B, A]).get F = some w := by
  constructor
  · rw [merge_get]
    simp [firstPresent, hA]
  · rw [merge_get]
    simp [firstPresent, hB]

/-- Witness for C6 at concrete inputs: two records that set storage to
the different values "yaml" and "sqlite". -/
theorem merge_order_sensitive_witness :
    FieldVal.str "yaml" ≠ FieldVal.str "sqlite" ∧
    (SparseConfig.default.with_storage (some "yaml")).get ConfigField.storage
        = some (FieldVal.str "yaml") ∧
    (SparseConfig.default.with_storage (some "sqlite")).get ConfigField.storage
        = some (FieldVal.str "sqlite") ∧
    (merge [SparseConfig.default.with_storage (some "yaml"),
        SparseConfig.default.with_storage (some "sqlite")]).get ConfigField.storage
        = some (FieldVal.str "yaml") ∧
    (merge [SparseConfig.default.with_storage (some "sqlite"),
        SparseConfig.default.with_storage (some "yaml")]).get ConfigField.storage
        = some (FieldVal.str "sqlite") := by
  refine ⟨by decide, rfl, rfl, ?_, ?_⟩
  · exact (merge_order_sensitive ConfigField.storage
      (SparseConfig.default.with_storage (some "yaml"))
      (SparseConfig.default.with_storage (some "sqlite"))
      (FieldVal.str "yaml") (FieldVal.str "sqlite") (by decide) rfl rfl).1
  · exact (merge_order_sensitive ConfigField.storage
      (SparseConfig.default.with_storage (some "sqlite"))
      (SparseConfig.default.with_storage (some "yaml"))
      (FieldVal.str "sqlite") (FieldVal.str "yaml") (by decide) rfl rfl).1

/-- Claim C2: DefaultConfig::new().build() returns exactly the fixed
default record — storage "yaml", transport "raw", cert_dir
"/etc/splinter/certs/", the five certificate paths under it,
service_endpoint "127.0.0.1:8043", network_endpoint "127.0.0.1:8044",
bind "127.0.0.1:8080", peers the present empty sequence, node_id,
registry_backend and registry_file absent, heartbeat_interval 30 seconds,
admin_service_coordinator_timeout 30000 ms, state_dir "/var/lib/splinter/",
and database "127.0.0.1:5432" exactly when the database feature is
compiled in — for every filesystem state. -/
theorem default_build_values (is_file : String → Bool) (database_feature : Bool) :
    (DefaultConfig.new is_file database_feature).build database_feature =
      { storage := some "yaml"
        transport := some "raw"
        cert_dir := some "/etc/splinter/certs/"
        ca_certs := some "/etc/splinter/certs/ca.pem"
        client_cert := some "/etc/splinter/certs/client.crt"
        client_key := some "/etc/splinter/certs/private/client.key"
        server_cert := some "/etc/splinter/certs/server.crt"
        server_key := some "/etc/splinter/certs/private/server.key"
        service_endpoint := some "127.0.0.1:8043"
        network_endpoint := some "127.0.0.1:8044"
        peers := some []
        node_id := none
        bind := some "127.0.0.1:8080"
        database := if database_feature then some "127.0.0.1:5432" else none
        registry_backend := none
        registry_file := none
        heartbeat_interval := some 30
        admin_service_coordinator_timeout := some 30000
        state_dir := some "/var/lib/splinter/" } := by
  cases database_feature <;> rfl

/-- Claim C3: each of the five certificate-path fields produced by
DefaultSource equals cert_dir joined with that field's fixed relative
filename (ca.pem, client.crt, private/client.key, server.crt,
private/server.key respectively), regardless of the filesystem state;
nonexistence of the joined path only adds a diagnostic message, it never
makes the computation fail or the slot absent. -/
theorem default_cert_paths (is_file : String → Bool) (database_feature : Bool) :
    CA_PEM = "ca.pem" ∧ CLIENT_CERT = "client.crt" ∧
    CLIENT_KEY = "private/client.key" ∧ SERVER_CERT = "server.crt" ∧
    SERVER_KEY = "private/server.key" ∧
    (DefaultConfig.new is_file database_feature).ca_certs
        = some (path_join DEFAULT_CERT_DIR CA_PEM) ∧
    (DefaultConfig.new is_file database_feature).client_cert
        = some (path_join DEFAULT_CERT_DIR CLIENT_CERT) ∧
    (DefaultConfig.new is_file database_feature).client_key
        = some (path_join DEFAULT_CERT_DIR CLIENT_KEY) ∧
    (DefaultConfig.new is_file database_feature).server_cert
        = some (path_join DEFAULT_CERT_DIR SERVER_CERT) ∧
    (DefaultConfig.new is_file database_feature).server_key
        = some (path_join DEFAULT_CERT_DIR SERVER_KEY) ∧
    (∀ d x, (get_cert_file_path is_file d x).1 = some (path_join d x)) ∧
    ∀ d x, (get_cert_file_path is_file d x).2 =
      if is_file (path_join d x) then []
      else ["Configuration file not found: " ++ d ++ x] :=
  ⟨rfl, rfl, rfl, rfl, rfl, rfl, rfl, rfl, rfl, rfl,
    fun _ _ => rfl, fun _ _ => rfl⟩

/-- Claim C7: admin_service_coordinator_timeout is stored internally as an
integer number of milliseconds, and the read accessor exposes it as the
duration equal to the stored milliseconds, not as a raw integer. -/
theorem admin_timeout_exposed_as_duration (c : SparseConfig) (n : Nat)
    (h : c.admin_service_coordinator_timeout = some n) :
    c.get_admin_service_coordinator_timeout = some (Duration.from_millis n) ∧
    (Duration.from_millis n).as_millis = n := by
  constructor
  · simp [SparseConfig.get_admin_service_coordinator_timeout, h]
  · simp only [Duration.from_millis, Duration.as_millis]
    omega

/-- Witness for C7 at the record DefaultSource produces: the stored slot is
the raw integer 30000 and the accessor exposes a 30000 ms duration. -/
theorem admin_timeout_exposed_as_duration_witness :
    ((DefaultConfig.new (fun _ => false) true).build true).admin_service_coordinator_timeout
        = some 30000 ∧
    (((DefaultConfig.new (fun _ => false) true).build true).get_admin_service_coordinator_timeout
        = some (Duration.from_millis 30000) ∧
      (Duration.from_millis 30000).as_millis = 30000) :=
  ⟨rfl, admin_timeout_exposed_as_duration
    ((DefaultConfig.new (fun _ => false) true).build true) 30000 rfl⟩

/-- Claim C8: DefaultSource's produce never fails — new followed by build
is a total function into complete sparse records, and the absent branch of
the certificate-path computation is unreachable: for every filesystem
state the path conversion yields a present value, so every certificate
slot of the produced record is present. -/
theorem produce_never_fails (is_file : String → Bool) (database_feature : Bool) :
    (∀ d x, ((get_cert_file_path is_file d x).1).isSome = true) ∧
    ((DefaultConfig.new is_file database_feature).ca_certs).isSome = true ∧
    ((DefaultConfig.new is_file database_feature).client_cert).isSome = true ∧
    ((DefaultConfig.new is_file database_feature).client_key).isSome = true ∧
    ((DefaultConfig.new is_file database_feature).server_cert).isSome = true ∧
    ((DefaultConfig.new is_file database_feature).server_key).isSome = true ∧
    ∃ r : SparseConfig,
      (DefaultConfig.new is_file database_feature).build database_feature = r :=
  ⟨fun _ _ => rfl, rfl, rfl, rfl, rfl, rfl, ⟨_, rfl⟩⟩

/-- Claim C9: the record produced by DefaultSource is independent of
filesystem state — any two filesystem predicates yield equal DefaultConfig
values and equal built records; the file-existence check influences only
the emitted diagnostics, as the two final conjuncts exhibit. -/
theorem default_filesystem_independent (f g : String → Bool) (database_feature : Bool) :
    DefaultConfig.new f database_feature = DefaultConfig.new g database_feature ∧
    (DefaultConfig.new f database_feature).build database_feature
        = (DefaultConfig.new g database_feature).build database_feature ∧
    (∀ d x, (get_cert_file_path f d x).1 = (get_cert_file_path g d x).1) ∧
    (get_cert_file_path (fun _ => true) DEFAULT_CERT_DIR CA_PEM).2 = [] ∧
    (get_cert_file_path (fun _ => false) DEFAULT_CERT_DIR CA_PEM).2
        = ["Configuration file not found: " ++ DEFAULT_CERT_DIR ++ CA_PEM] :=
  ⟨rfl, rfl, fun _ _ => rfl, rfl, rfl⟩

/-- Claim C10: build transfers every field of DefaultConfig into the
corresponding slot of the resulting sparse record unchanged — present
values stay present with the same value and absent fields stay absent —
and the database slot is transferred exactly when the database feature is
compiled in (otherwise it stays absent, matching the Rust struct that has
no database field without the feature). -/
theorem build_transfers_fields (d : DefaultConfig) (database_feature : Bool) :
    (d.build database_feature).storage = d.storage ∧
    (d.build database_feature).transport = d.transport ∧
    (d.build database_feature).cert_dir = d.cert_dir ∧
    (d.build database_feature).ca_certs = d.ca_certs ∧
    (d.build database_feature).client_cert = d.client_cert ∧
    (d.build database_feature).client_key = d.client_key ∧
    (d.build database_feature).server_cert = d.server_cert ∧
    (d.build database_feature).server_key = d.server_key ∧
    (d.build database_feature).service_endpoint = d.service_endpoint ∧
    (d.build database_feature).network_endpoint = d.network_endpoint ∧
    (d.build database_feature).peers = d.peers ∧
    (d.build database_feature).node_id = d.node_id ∧
    (d.build database_feature).bind = d.bind ∧
    (d.build database_feature).registry_backend = d.registry_backend ∧
    (d.build database_feature).registry_file = d.registry_file ∧
    (d.build database_feature).heartbeat_interval = d.heartbeat_interval ∧
    (d.build database_feature).admin_service_coordinator_timeout
        = d.admin_service_coordinator_timeout ∧
    (d.build database_feature).state_dir = d.state_dir ∧
    (d.build database_feature).database
        = if database_feature then d.database else none := by
  cases database_feature <;>
    exact ⟨rfl, rfl, rfl, rfl, rfl, rfl, rfl, rfl, rfl, rfl, rfl, rfl, rfl,
      rfl, rfl, rfl, rfl, rfl, rfl⟩

end SplinterConfig
